import Mathlib

/-!
Verification of the HTTP wrapper layer of the rspotify client
(`src/http/mod.rs`): the header-construction helpers (`bearer_auth`,
`basic_auth`), the URL resolver `endpoint_url`, the basic request verbs
(`get`, `post`, `post_form`, `put`, `delete`) and the authenticated
endpoint verbs (`endpoint_get`, `endpoint_post`, `endpoint_put`,
`endpoint_delete`).

Modelling conventions:
* Rust `String`/`&str` values are modelled as `List Char`.
* The credentials fed to `basic_auth` are modelled as their UTF-8 byte
  sequences (`List Nat`, each byte below 256), because `base64::encode`
  operates on the bytes of the formatted `user:password` string; the
  colon is byte 58.
* The `base64` crate's `encode` (standard alphabet, `=` padding) is
  embedded as `base64Encode`; the matching standard decoder is
  `base64Decode`.
* The configured HTTP backend (the `BaseHTTPClient` trait object held in
  the client's `http` field) is a record of five functions, one per verb.
  Each wrapper verb returns, next to the backend's answer, the list of
  backend calls it performed, so that "exactly one backend call" and
  "no network call" are provable statements.
-/

namespace RSpotify

/-- Rust strings are modelled as lists of characters. -/
abbrev Str := List Char

/-- Rust's `str::starts_with` on the `List Char` model: `starts_with s p`
is `true` exactly when `p` is a prefix of `s`. -/
def starts_with : Str → Str → Bool
  | _, [] => true
  | [], _ :: _ => false
  | c :: cs, p :: ps => c == p && starts_with cs ps

/-- A true `starts_with` is preserved by appending on the right. -/
theorem starts_with_append (a b p : Str) (h : starts_with a p = true) :
    starts_with (a ++ b) p = true := by
  induction p generalizing a with
  | nil => simp [starts_with]
  | cons q qs ih =>
    cases a with
    | nil => simp [starts_with] at h
    | cons c cs =>
      simp only [List.cons_append, starts_with, Bool.and_eq_true] at h ⊢
      exact ⟨h.1, ih cs h.2⟩

/-! ### The base64 encoding used by `headers::basic_auth`

The `base64` crate's `encode` uses the standard alphabet with `=`
padding.  `base64Encode` consumes the byte list three bytes at a time,
emitting four alphabet characters per block and padding the final
partial block. -/

/-- The standard base64 alphabet. -/
def base64Alphabet : List Char :=
  "ABCDEFGHIJKLMNOPQRSTUVWXYZabcdefghijklmnopqrstuvwxyz0123456789+/".toList

/-- Character number `i` of the base64 alphabet. -/
def base64Char (i : Nat) : Char := base64Alphabet.getD i 'A'

/-- The position of a character in the base64 alphabet, if any. -/
def base64Index (c : Char) : Option Nat :=
  base64Alphabet.findIdx? (fun x => x == c)

/-- Standard base64 encoding of a byte sequence, with `=` padding. -/
def base64Encode : List Nat → List Char
  | [] => []
  | [a] => [base64Char (a / 4), base64Char (a % 4 * 16), '=', '=']
  | [a, b] =>
      [base64Char (a / 4), base64Char (a % 4 * 16 + b / 16),
       base64Char (b % 16 * 4), '=']
  | a :: b :: c :: rest =>
      base64Char (a / 4) :: base64Char (a % 4 * 16 + b / 16) ::
      base64Char (b % 16 * 4 + c / 64) :: base64Char (c % 64) ::
      base64Encode rest

/-- Decode one four-character base64 block, honouring `=` padding. -/
def decodeQuad (c1 c2 c3 c4 : Char) : Option (List Nat) :=
  (base64Index c1).bind fun s1 =>
  (base64Index c2).bind fun s2 =>
  if c3 = '=' then
    some [s1 * 4 + s2 / 16]
  else
    (base64Index c3).bind fun s3 =>
    if c4 = '=' then
      some [s1 * 4 + s2 / 16, s2 % 16 * 16 + s3 / 4]
    else
      (base64Index c4).bind fun s4 =>
      some [s1 * 4 + s2 / 16, s2 % 16 * 16 + s3 / 4, s3 % 4 * 64 + s4]

/-- Standard base64 decoding: four characters at a time. -/
def base64Decode : List Char → Option (List Nat)
  | [] => some []
  | c1 :: c2 :: c3 :: c4 :: rest =>
      match decodeQuad c1 c2 c3 c4, base64Decode rest with
      | some bytes, some tail => some (bytes ++ tail)
      | _, _ => none
  | _ => none

/-- Binding a `some` just applies the function. -/
theorem option_some_bind {α β : Type} (a : α) (f : α → Option β) :
    (Option.some a).bind f = f a := rfl

/-- Looking up an alphabet character recovers its index. -/
theorem base64Index_base64Char :
    ∀ i, i < 64 → base64Index (base64Char i) = some i := by decide

/-- Alphabet characters are never the padding character. -/
theorem base64Char_ne_pad : ∀ i, i < 64 → base64Char i ≠ '=' := by decide

/-- Decoding a block of four alphabet characters. -/
theorem decodeQuad_chars (s1 s2 s3 s4 : Nat) (h1 : s1 < 64) (h2 : s2 < 64)
    (h3 : s3 < 64) (h4 : s4 < 64) :
    decodeQuad (base64Char s1) (base64Char s2) (base64Char s3) (base64Char s4) =
      some [s1 * 4 + s2 / 16, s2 % 16 * 16 + s3 / 4, s3 % 4 * 64 + s4] := by
  simp [decodeQuad, base64Index_base64Char _ h1, base64Index_base64Char _ h2,
    base64Index_base64Char _ h3, base64Index_base64Char _ h4,
    base64Char_ne_pad _ h3, base64Char_ne_pad _ h4, option_some_bind]

/-- Decoding a block with one padding character. -/
theorem decodeQuad_pad1 (s1 s2 s3 : Nat) (h1 : s1 < 64) (h2 : s2 < 64)
    (h3 : s3 < 64) :
    decodeQuad (base64Char s1) (base64Char s2) (base64Char s3) '=' =
      some [s1 * 4 + s2 / 16, s2 % 16 * 16 + s3 / 4] := by
  simp [decodeQuad, base64Index_base64Char _ h1, base64Index_base64Char _ h2,
    base64Index_base64Char _ h3, base64Char_ne_pad _ h3, option_some_bind]

/-- Decoding a block with two padding characters. -/
theorem decodeQuad_pad2 (s1 s2 : Nat) (h1 : s1 < 64) (h2 : s2 < 64) :
    decodeQuad (base64Char s1) (base64Char s2) '=' '=' =
      some [s1 * 4 + s2 / 16] := by
  simp [decodeQuad, base64Index_base64Char _ h1, base64Index_base64Char _ h2,
    option_some_bind]

/-- Auxiliary strong induction for the base64 round trip. -/
theorem base64_decode_encode_aux :
    ∀ n (bs : List Nat), bs.length ≤ n → (∀ b ∈ bs, b < 256) →
      base64Decode (base64Encode bs) = some bs := by
  intro n
  induction n with
  | zero =>
    intro bs hlen _
    have : bs = [] := List.length_eq_zero.mp (Nat.le_zero.mp hlen)
    subst this
    simp [base64Encode, base64Decode]
  | succ n ih =>
    intro bs hlen hb
    match bs with
    | [] => simp [base64Encode, base64Decode]
    | [a] =>
      have ha : a < 256 := hb a (by simp)
      have e := decodeQuad_pad2 (a / 4) (a % 4 * 16) (by omega) (by omega)
      simp [base64Encode, base64Decode, e]
      omega
    | [a, b] =>
      have ha : a < 256 := hb a (by simp)
      have hb2 : b < 256 := hb b (by simp)
      have e := decodeQuad_pad1 (a / 4) (a % 4 * 16 + b / 16) (b % 16 * 4)
        (by omega) (by omega) (by omega)
      simp [base64Encode, base64Decode, e]
      omega
    | a :: b :: c :: rest =>
      have ha : a < 256 := hb a (by simp)
      have hb2 : b < 256 := hb b (by simp)
      have hc : c < 256 := hb c (by simp)
      have hrest : base64Decode (base64Encode rest) = some rest := by
        refine ih rest ?_ (fun x hx => hb x (by simp [hx]))
        simp at hlen
        omega
      have e := decodeQuad_chars (a / 4) (a % 4 * 16 + b / 16)
        (b % 16 * 4 + c / 64) (c % 64) (by omega) (by omega) (by omega) (by omega)
      simp [base64Encode, base64Decode, e, hrest]
      refine ⟨by omega, by omega, by omega⟩

/-- Round trip: decoding an encoded byte sequence recovers it. -/
theorem base64_decode_encode (bs : List Nat) (h : ∀ b ∈ bs, b < 256) :
    base64Decode (base64Encode bs) = some bs :=
  base64_decode_encode_aux bs.length bs (Nat.le_refl _) h

/-! ### Data model of `src/http/mod.rs` -/

/-- Header maps (`pub type Headers = HashMap<String, String>`): the code
only ever builds them with `Headers::new()` plus `insert`, so an
association list is a faithful model. -/
abbrev Headers := List (Str × Str)

/-- Query maps (`pub type Query = HashMap<String, String>`). -/
abbrev Query := List (Str × Str)

/-- Form maps (`pub type Form = HashMap<String, String>`). -/
abbrev Form := List (Str × Str)

/-- A `serde_json::Value` JSON payload (numbers modelled as integers;
no claim inspects numeric payloads). -/
inductive Value where
  | null : Value
  | bool (b : Bool) : Value
  | num (n : Int) : Value
  | str (s : Str) : Value
  | arr (elems : List Value) : Value
  | obj (fields : List (Str × Value)) : Value

/-- Modelled from the spec: the `Token` entity of the `oauth2` module
(declared outside `src/`), which "exposes at minimum an access-token
string"; only `access_token` is read by this code. -/
structure Token where
  access_token : Str

/-- Modelled from the spec (§7): the client-error kinds.  The
`InvalidAuth` constructor is the authentication-unavailable condition;
the remaining kinds cover transport, HTTP-status and body failures
raised by the backends. -/
inductive ClientError where
  | InvalidAuth : ClientError
  | Transport (msg : Str) : ClientError
  | StatusCode (code : Nat) (body : Str) : ClientError
  | BodyFailure (msg : Str) : ClientError
deriving DecidableEq

/-- The result type `ClientResult<T>` of the client module. -/
abbrev ClientResult (α : Type) := Except ClientError α

/-- The `BaseHTTPClient` trait: five asynchronous verbs, each taking a
fully resolved URL, optional extra headers and a verb-appropriate
payload, returning the raw response body or a client error. -/
structure BaseHTTPClient where
  get : Str → Option Headers → Query → ClientResult Str
  post : Str → Option Headers → Value → ClientResult Str
  post_form : Str → Option Headers → Form → ClientResult Str
  put : Str → Option Headers → Value → ClientResult Str
  delete : Str → Option Headers → Value → ClientResult Str

/-- One invocation of a backend-interface verb, recorded with all its
arguments.  The wrapper verbs below return the list of such calls they
perform, which makes "no network call" and "exactly one backend call"
provable. -/
inductive HttpCall where
  | get (url : Str) (headers : Option Headers) (payload : Query) : HttpCall
  | post (url : Str) (headers : Option Headers) (payload : Value) : HttpCall
  | post_form (url : Str) (headers : Option Headers) (payload : Form) : HttpCall
  | put (url : Str) (headers : Option Headers) (payload : Value) : HttpCall
  | delete (url : Str) (headers : Option Headers) (payload : Value) : HttpCall

/-- The URL argument of a recorded backend call. -/
def HttpCall.url : HttpCall → Str
  | .get u _ _ => u
  | .post u _ _ => u
  | .post_form u _ _ => u
  | .put u _ _ => u
  | .delete u _ _ => u

/-- The Spotify client, restricted to the fields `src/http/mod.rs`
reads: the configured API base-URL (the `prefix` field, renamed because
that word is reserved in Lean), the current token of the token store,
and the selected backend instance (`http`). -/
structure Spotify where
  base_url : Str
  token : Option Token
  http : BaseHTTPClient

/-! ### Header helpers (`mod headers`) -/

namespace headers

/-- The OAuth field-name constant `CLIENT_ID`. -/
def CLIENT_ID : Str := "client_id".toList

/-- The OAuth field-name constant `CODE`. -/
def CODE : Str := "code".toList

/-- The OAuth field-name constant `GRANT_AUTH_CODE`. -/
def GRANT_AUTH_CODE : Str := "authorization_code".toList

/-- The OAuth field-name constant `GRANT_CLIENT_CREDS`. -/
def GRANT_CLIENT_CREDS : Str := "client_credentials".toList

/-- The OAuth field-name constant `GRANT_REFRESH_TOKEN`. -/
def GRANT_REFRESH_TOKEN : Str := "refresh_token".toList

/-- The OAuth field-name constant `GRANT_TYPE`. -/
def GRANT_TYPE : Str := "grant_type".toList

/-- The OAuth field-name constant `REDIRECT_URI`. -/
def REDIRECT_URI : Str := "redirect_uri".toList

/-- The OAuth field-name constant `REFRESH_TOKEN`. -/
def REFRESH_TOKEN : Str := "refresh_token".toList

/-- The OAuth field-name constant `RESPONSE_CODE`. -/
def RESPONSE_CODE : Str := "code".toList

/-- The OAuth field-name constant `RESPONSE_TYPE`. -/
def RESPONSE_TYPE : Str := "response_type".toList

/-- The OAuth field-name constant `SCOPE`. -/
def SCOPE : Str := "scope".toList

/-- The OAuth field-name constant `SHOW_DIALOG`. -/
def SHOW_DIALOG : Str := "show_dialog".toList

/-- The OAuth field-name constant `STATE`. -/
def STATE : Str := "state".toList

/-- The bearer authorization header builder: the header name is
`"authorization"` and the value is `format!("Bearer {}", tok.access_token)`. -/
def bearer_auth (tok : Token) : Str × Str :=
  ("authorization".toList, "Bearer ".toList ++ tok.access_token)

/-- The basic authorization header builder: the header name is
`"authorization"` and the value is `"Basic "` followed by the base64
encoding of `format!("{}:{}", user, password)`.  The credentials are
modelled as UTF-8 byte sequences and the colon is byte 58. -/
def basic_auth (user password : List Nat) : Str × Str :=
  ("authorization".toList, "Basic ".toList ++ base64Encode (user ++ 58 :: password))

end headers

/-! ### The request wrapper layer (`impl Spotify`) -/

/-- The URL resolver: a URL that does not start with `"http"` is
considered relative and gets the configured base URL prepended;
otherwise it is returned unchanged. -/
def Spotify.endpoint_url (s : Spotify) (url : Str) : Str :=
  if ! starts_with url ("http".toList) then s.base_url ++ url else url

/-- Modelled from the spec: `Spotify::get_token` (defined in the client
module, outside `src/`) reads the current access token from the token
store and fails with the authentication-unavailable error when no token
is set. -/
def Spotify.get_token (s : Spotify) : ClientResult Token :=
  match s.token with
  | some t => Except.ok t
  | none => Except.error ClientError.InvalidAuth

/-- The headers required for authenticated requests: a fresh header map
holding the single bearer-auth entry, or the propagated failure of
`get_token`. -/
def Spotify.auth_headers (s : Spotify) : ClientResult Headers :=
  match s.get_token with
  | Except.error e => Except.error e
  | Except.ok tok => Except.ok [headers.bearer_auth tok]

/-- The basic `get` wrapper: resolve the URL, then delegate to the
backend's `get` (one backend call). -/
def Spotify.get (s : Spotify) (url : Str) (headers : Option Headers)
    (payload : Query) : ClientResult Str × List HttpCall :=
  let u := s.endpoint_url url
  (s.http.get u headers payload, [HttpCall.get u headers payload])

/-- The basic `post` wrapper: resolve the URL, then delegate to the
backend's `post` (one backend call). -/
def Spotify.post (s : Spotify) (url : Str) (headers : Option Headers)
    (payload : Value) : ClientResult Str × List HttpCall :=
  let u := s.endpoint_url url
  (s.http.post u headers payload, [HttpCall.post u headers payload])

/-- The basic `post_form` wrapper: resolve the URL, then delegate to the
backend's `post_form` (one backend call). -/
def Spotify.post_form (s : Spotify) (url : Str) (headers : Option Headers)
    (payload : Form) : ClientResult Str × List HttpCall :=
  let u := s.endpoint_url url
  (s.http.post_form u headers payload, [HttpCall.post_form u headers payload])

/-- The basic `put` wrapper: resolve the URL, then delegate to the
backend's `put` (one backend call). -/
def Spotify.put (s : Spotify) (url : Str) (headers : Option Headers)
    (payload : Value) : ClientResult Str × List HttpCall :=
  let u := s.endpoint_url url
  (s.http.put u headers payload, [HttpCall.put u headers payload])

/-- The basic `delete` wrapper: resolve the URL, then delegate to the
backend's `delete` (one backend call). -/
def Spotify.delete (s : Spotify) (url : Str) (headers : Option Headers)
    (payload : Value) : ClientResult Str × List HttpCall :=
  let u := s.endpoint_url url
  (s.http.delete u headers payload, [HttpCall.delete u headers payload])

/-- The authenticated `endpoint_get` wrapper: compute `auth_headers`
(propagating its failure, in which case no backend call happens) and
delegate to the basic `get`. -/
def Spotify.endpoint_get (s : Spotify) (url : Str) (payload : Query) :
    ClientResult Str × List HttpCall :=
  match s.auth_headers with
  | Except.error e => (Except.error e, [])
  | Except.ok h => s.get url (some h) payload

/-- The authenticated `endpoint_post` wrapper. -/
def Spotify.endpoint_post (s : Spotify) (url : Str) (payload : Value) :
    ClientResult Str × List HttpCall :=
  match s.auth_headers with
  | Except.error e => (Except.error e, [])
  | Except.ok h => s.post url (some h) payload

/-- The authenticated `endpoint_put` wrapper. -/
def Spotify.endpoint_put (s : Spotify) (url : Str) (payload : Value) :
    ClientResult Str × List HttpCall :=
  match s.auth_headers with
  | Except.error e => (Except.error e, [])
  | Except.ok h => s.put url (some h) payload

/-- The authenticated `endpoint_delete` wrapper. -/
def Spotify.endpoint_delete (s : Spotify) (url : Str) (payload : Value) :
    ClientResult Str × List HttpCall :=
  match s.auth_headers with
  | Except.error e => (Except.error e, [])
  | Except.ok h => s.delete url (some h) payload

/-! ### Concrete clients used to witness the theorems -/

/-- A trivial backend answering every call with an empty body. -/
def exampleBackend : BaseHTTPClient where
  get _ _ _ := Except.ok []
  post _ _ _ := Except.ok []
  post_form _ _ _ := Except.ok []
  put _ _ _ := Except.ok []
  delete _ _ _ := Except.ok []

/-- A client configured with the spec's example base URL and no token. -/
def spotifyCfg : Spotify where
  base_url := "https://api.example.com/v1/".toList
  token := none
  http := exampleBackend

/-- The same client configuration with an access token set. -/
def spotifyAuthed : Spotify where
  base_url := "https://api.example.com/v1/".toList
  token := some ⟨"TOKEN".toList⟩
  http := exampleBackend

/-- A client whose configured base URL does not itself start with
`"http"`; it exhibits the non-idempotence of `endpoint_url`. -/
def relPrefixClient : Spotify where
  base_url := "api/".toList
  token := none
  http := exampleBackend

/-! ### The claims -/

/-- Unfolding `endpoint_url` on a URL the code recognises as absolute. -/
theorem endpoint_url_eq_of_http (s : Spotify) (url : Str)
    (h : starts_with url ("http".toList) = true) : s.endpoint_url url = url := by
  unfold Spotify.endpoint_url
  rw [h]
  rfl

/-- Unfolding `endpoint_url` on a URL the code treats as relative. -/
theorem endpoint_url_eq_of_rel (s : Spotify) (url : Str)
    (h : starts_with url ("http".toList) = false) :
    s.endpoint_url url = s.base_url ++ url := by
  unfold Spotify.endpoint_url
  rw [h]
  rfl

/-- Claim C1: a URL that starts with the marker the code recognises as
absolute (the literal character sequence `"http"`) is returned unchanged
by `endpoint_url`; every other URL is treated as relative and gets the
configured base-URL appended in front of it. -/
theorem endpoint_url_resolves (s : Spotify) (url : Str) :
    (starts_with url ("http".toList) = true → s.endpoint_url url = url) ∧
    (starts_with url ("http".toList) = false →
      s.endpoint_url url = s.base_url ++ url) :=
  ⟨endpoint_url_eq_of_http s url, endpoint_url_eq_of_rel s url⟩

/-- Witness for C1 at the spec's example inputs. -/
theorem endpoint_url_resolves_w :
    spotifyCfg.endpoint_url ("http://other.example.com/x".toList) =
      "http://other.example.com/x".toList ∧
    spotifyCfg.endpoint_url ("me".toList) =
      "https://api.example.com/v1/".toList ++ "me".toList :=
  ⟨(endpoint_url_resolves spotifyCfg ("http://other.example.com/x".toList)).1
      (by decide),
   (endpoint_url_resolves spotifyCfg ("me".toList)).2 (by decide)⟩

/-- Claim C2: with no token set, every endpoint verb returns the
authentication-unavailable error and performs no backend call (its call
trace is empty). -/
theorem endpoint_verbs_no_token (s : Spotify) (url : Str) (q : Query)
    (v : Value) (h : s.token = none) :
    s.endpoint_get url q = (Except.error ClientError.InvalidAuth, []) ∧
    s.endpoint_post url v = (Except.error ClientError.InvalidAuth, []) ∧
    s.endpoint_put url v = (Except.error ClientError.InvalidAuth, []) ∧
    s.endpoint_delete url v = (Except.error ClientError.InvalidAuth, []) := by
  simp [Spotify.endpoint_get, Spotify.endpoint_post, Spotify.endpoint_put,
    Spotify.endpoint_delete, Spotify.auth_headers, Spotify.get_token, h]

/-- Witness for C2 on the token-less example client. -/
theorem endpoint_verbs_no_token_w :
    spotifyCfg.token = none ∧
    spotifyCfg.endpoint_get ("me".toList) [] =
      (Except.error ClientError.InvalidAuth, []) :=
  ⟨rfl, (endpoint_verbs_no_token spotifyCfg ("me".toList) [] (Value.obj [])
    rfl).1⟩

/-- Claim C3: `bearer_auth` returns exactly the header name
`"authorization"` and the value `"Bearer "` followed by the token's
access-token string. -/
theorem bearer_auth_spec (tok : Token) :
    (headers.bearer_auth tok).1 = "authorization".toList ∧
    (headers.bearer_auth tok).2 = "Bearer ".toList ++ tok.access_token :=
  ⟨rfl, rfl⟩

/-- Claim C4: with a token present, every endpoint verb performs exactly
one backend call, and the header map handed to the backend is the
single-entry map holding the bearer-auth entry (endpoint verbs accept no
further caller-supplied headers, so that entry is the whole map). -/
theorem endpoint_verbs_with_token (s : Spotify) (tok : Token) (url : Str)
    (q : Query) (v : Value) (h : s.token = some tok) :
    (s.endpoint_get url q).2 =
      [HttpCall.get (s.endpoint_url url)
        (some [("authorization".toList, "Bearer ".toList ++ tok.access_token)]) q] ∧
    (s.endpoint_post url v).2 =
      [HttpCall.post (s.endpoint_url url)
        (some [("authorization".toList, "Bearer ".toList ++ tok.access_token)]) v] ∧
    (s.endpoint_put url v).2 =
      [HttpCall.put (s.endpoint_url url)
        (some [("authorization".toList, "Bearer ".toList ++ tok.access_token)]) v] ∧
    (s.endpoint_delete url v).2 =
      [HttpCall.delete (s.endpoint_url url)
        (some [("authorization".toList, "Bearer ".toList ++ tok.access_token)]) v] := by
  simp [Spotify.endpoint_get, Spotify.endpoint_post, Spotify.endpoint_put,
    Spotify.endpoint_delete, Spotify.auth_headers, Spotify.get_token, h,
    Spotify.get, Spotify.post, Spotify.put, Spotify.delete, headers.bearer_auth]

/-- Witness for C4 on the authenticated example client. -/
theorem endpoint_verbs_with_token_w :
    (spotifyAuthed.endpoint_get ("me".toList) []).2 =
      [HttpCall.get (spotifyAuthed.endpoint_url ("me".toList))
        (some [("authorization".toList, "Bearer ".toList ++ "TOKEN".toList)]) []] :=
  (endpoint_verbs_with_token spotifyAuthed ⟨"TOKEN".toList⟩ ("me".toList) []
    (Value.obj []) rfl).1

/-- Claim C5: every backend call issued by any basic or endpoint verb
carries the URL produced by `endpoint_url`, and that URL is either the
unchanged input (when the input starts with the recognised marker
`"http"`) or the configured base URL prepended exactly once. -/
theorem outgoing_url_invariant (s : Spotify) (url : Str) (hs : Option Headers)
    (q : Query) (v : Value) (f : Form) :
    (∀ call ∈ (s.get url hs q).2, call.url = s.endpoint_url url) ∧
    (∀ call ∈ (s.post url hs v).2, call.url = s.endpoint_url url) ∧
    (∀ call ∈ (s.post_form url hs f).2, call.url = s.endpoint_url url) ∧
    (∀ call ∈ (s.put url hs v).2, call.url = s.endpoint_url url) ∧
    (∀ call ∈ (s.delete url hs v).2, call.url = s.endpoint_url url) ∧
    (∀ call ∈ (s.endpoint_get url q).2, call.url = s.endpoint_url url) ∧
    (∀ call ∈ (s.endpoint_post url v).2, call.url = s.endpoint_url url) ∧
    (∀ call ∈ (s.endpoint_put url v).2, call.url = s.endpoint_url url) ∧
    (∀ call ∈ (s.endpoint_delete url v).2, call.url = s.endpoint_url url) ∧
    ((starts_with url ("http".toList) = true ∧ s.endpoint_url url = url) ∨
     (starts_with url ("http".toList) = false ∧
       s.endpoint_url url = s.base_url ++ url)) := by
  refine ⟨?_, ?_, ?_, ?_, ?_, ?_, ?_, ?_, ?_, ?_⟩
  · intro call hc
    simp [Spotify.get] at hc
    subst hc
    rfl
  · intro call hc
    simp [Spotify.post] at hc
    subst hc
    rfl
  · intro call hc
    simp [Spotify.post_form] at hc
    subst hc
    rfl
  · intro call hc
    simp [Spotify.put] at hc
    subst hc
    rfl
  · intro call hc
    simp [Spotify.delete] at hc
    subst hc
    rfl
  · intro call hc
    cases hh : s.auth_headers with
    | error e => simp [Spotify.endpoint_get, hh] at hc
    | ok hdrs =>
      simp [Spotify.endpoint_get, hh, Spotify.get] at hc
      subst hc
      rfl
  · intro call hc
    cases hh : s.auth_headers with
    | error e => simp [Spotify.endpoint_post, hh] at hc
    | ok hdrs =>
      simp [Spotify.endpoint_post, hh, Spotify.post] at hc
      subst hc
      rfl
  · intro call hc
    cases hh : s.auth_headers with
    | error e => simp [Spotify.endpoint_put, hh] at hc
    | ok hdrs =>
      simp [Spotify.endpoint_put, hh, Spotify.put] at hc
      subst hc
      rfl
  · intro call hc
    cases hh : s.auth_headers with
    | error e => simp [Spotify.endpoint_delete, hh] at hc
    | ok hdrs =>
      simp [Spotify.endpoint_delete, hh, Spotify.delete] at hc
      subst hc
      rfl
  · cases hsw : starts_with url ("http".toList) with
    | true => exact Or.inl ⟨rfl, endpoint_url_eq_of_http s url hsw⟩
    | false => exact Or.inr ⟨rfl, endpoint_url_eq_of_rel s url hsw⟩

/-- Witness for C5: the one call of a basic `get` carries the resolved
URL. -/
theorem outgoing_url_invariant_w :
    HttpCall.url (HttpCall.get (spotifyCfg.endpoint_url ("me".toList)) none []) =
      spotifyCfg.endpoint_url ("me".toList) :=
  (outgoing_url_invariant spotifyCfg ("me".toList) none [] (Value.obj []) []).1
    (HttpCall.get (spotifyCfg.endpoint_url ("me".toList)) none [])
    (by simp [Spotify.get])

/-- Counterexample to claim C6 as stated: on a client whose configured
base URL is `"api/"`, resolving `"me"` twice gives `"api/api/me"`, not
`"api/me"` — `endpoint_url` is not idempotent for every configuration. -/
theorem endpoint_url_not_idempotent :
    relPrefixClient.endpoint_url (relPrefixClient.endpoint_url ("me".toList)) ≠
      relPrefixClient.endpoint_url ("me".toList) := by decide

/-- Claim C6 (amended): whenever the configured base URL itself starts
with `"http"`, `endpoint_url` is idempotent: a second application
returns its own result unchanged, and an already-absolute result is
never re-prefixed. -/
theorem endpoint_url_idempotent_of_absolute_base (s : Spotify)
    (hbase : starts_with s.base_url ("http".toList) = true) (url : Str) :
    s.endpoint_url (s.endpoint_url url) = s.endpoint_url url := by
  cases hsw : starts_with url ("http".toList) with
  | true =>
    rw [endpoint_url_eq_of_http s url hsw]
    exact endpoint_url_eq_of_http s url hsw
  | false =>
    rw [endpoint_url_eq_of_rel s url hsw]
    exact endpoint_url_eq_of_http s _ (starts_with_append _ _ _ hbase)

/-- Witness for the amended C6 on the example client, whose base URL is
absolute. -/
theorem endpoint_url_idempotent_w :
    spotifyCfg.endpoint_url (spotifyCfg.endpoint_url ("me".toList)) =
      spotifyCfg.endpoint_url ("me".toList) :=
  endpoint_url_idempotent_of_absolute_base spotifyCfg (by decide) ("me".toList)

/-- Claim C7: `basic_auth` returns the header name `"authorization"`
and the value `"Basic "` followed by the base64 encoding of
`user ++ ":" ++ password`, and base64-decoding the part of the value
after `"Basic "` recovers exactly the bytes of `user ++ ":" ++ password`. -/
theorem basic_auth_roundtrip (user password : List Nat)
    (hu : ∀ b ∈ user, b < 256) (hp : ∀ b ∈ password, b < 256) :
    (headers.basic_auth user password).1 = "authorization".toList ∧
    (headers.basic_auth user password).2 =
      "Basic ".toList ++ base64Encode (user ++ 58 :: password) ∧
    base64Decode ((headers.basic_auth user password).2.drop 6) =
      some (user ++ 58 :: password) := by
  refine ⟨rfl, rfl, ?_⟩
  have hb : ∀ b ∈ user ++ 58 :: password, b < 256 := by
    intro b hbmem
    rcases List.mem_append.mp hbmem with h | h
    · exact hu b h
    · rcases List.mem_cons.mp h with h | h
      · subst h
        omega
      · exact hp b h
  have hdrop : ((headers.basic_auth user password).2).drop 6 =
      base64Encode (user ++ 58 :: password) := by
    show ("Basic ".toList ++ base64Encode (user ++ 58 :: password)).drop 6 = _
    rw [show (6 : Nat) = ("Basic ".toList).length from rfl]
    exact List.drop_left _ _
  rw [hdrop]
  exact base64_decode_encode _ hb

/-- Witness for C7 with user `"a"` (byte 97) and password `"b"`
(byte 98). -/
theorem basic_auth_roundtrip_w :
    (headers.basic_auth [97] [98]).2 =
      "Basic ".toList ++ base64Encode ([97] ++ 58 :: [98]) ∧
    base64Decode ((headers.basic_auth [97] [98]).2.drop 6) =
      some ([97] ++ 58 :: [98]) :=
  ⟨(basic_auth_roundtrip [97] [98] (by decide) (by decide)).2.1,
   (basic_auth_roundtrip [97] [98] (by decide) (by decide)).2.2⟩

/-- Claim C8: each basic verb hands the backend the URL resolved by
`endpoint_url`, passes the caller's headers and payload through
unchanged, performs exactly that one backend call, and returns the
backend's result unchanged. -/
theorem basic_verbs_delegate (s : Spotify) (url : Str) (hs : Option Headers)
    (q : Query) (v : Value) (f : Form) :
    s.get url hs q = (s.http.get (s.endpoint_url url) hs q,
      [HttpCall.get (s.endpoint_url url) hs q]) ∧
    s.post url hs v = (s.http.post (s.endpoint_url url) hs v,
      [HttpCall.post (s.endpoint_url url) hs v]) ∧
    s.post_form url hs f = (s.http.post_form (s.endpoint_url url) hs f,
      [HttpCall.post_form (s.endpoint_url url) hs f]) ∧
    s.put url hs v = (s.http.put (s.endpoint_url url) hs v,
      [HttpCall.put (s.endpoint_url url) hs v]) ∧
    s.delete url hs v = (s.http.delete (s.endpoint_url url) hs v,
      [HttpCall.delete (s.endpoint_url url) hs v]) :=
  ⟨rfl, rfl, rfl, rfl, rfl⟩

/-- Claim C9: the absoluteness test of `endpoint_url` is the literal
character prefix `"http"`, not a full scheme check: every input that
starts with those four characters — including non-URLs such as
`"httpbin-route"` — is returned unchanged and never prefixed. -/
theorem endpoint_url_literal_http_check :
    (∀ (s : Spotify) (url : Str), starts_with url ("http".toList) = true →
      s.endpoint_url url = url) ∧
    (∀ s : Spotify,
      s.endpoint_url ("httpbin-route".toList) = "httpbin-route".toList) := by
  constructor
  · intro s url h
    exact endpoint_url_eq_of_http s url h
  · intro s
    exact endpoint_url_eq_of_http s ("httpbin-route".toList) (by decide)

/-- Witness for C9 on the authenticated example client. -/
theorem endpoint_url_literal_http_check_w :
    spotifyAuthed.endpoint_url ("httpbin-route".toList) =
      "httpbin-route".toList :=
  endpoint_url_literal_http_check.1 spotifyAuthed ("httpbin-route".toList)
    (by decide)

/-- Claim C10: `basic_auth` is not injective on credential pairs: the
distinct pairs `("a:b", "c")` and `("a", "b:c")` (as byte sequences)
produce identical header pairs, so the original credentials cannot be
recovered from the header value. -/
theorem basic_auth_collision :
    headers.basic_auth [97, 58, 98] [99] = headers.basic_auth [97] [98, 58, 99] ∧
    ([97, 58, 98], [99]) ≠ (([97], [98, 58, 99]) : List Nat × List Nat) :=
  ⟨rfl, by decide⟩

end RSpotify
